import Mathlib

/-!
Verification of the BitwiseEnum header (bitwise_enum.h) and its example
program (example/main.cpp).

The header defines, for any scoped enumeration `E` whose trait
`enable_bitwise_operators<E>::enable` is `true`, the seven operators
`|`, `&`, `^`, `~`, `|=`, `&=`, `^=`.  Each operator casts its operands
to the underlying integer type `U` of `E`, performs the corresponding
bitwise operation there, and casts the result back to `E`.

Embedding choices:
* A value of an enumeration whose underlying type `U` is a `w`-bit
  integer type is represented by its `w`-bit pattern, a natural number
  below `2 ^ w` (`EnumValue w`).  `static_cast` between `E` and `U`
  preserves the bit pattern, and for a signed `U` the twos-complement
  bit pattern of the stored value is what the cast preserves, so the
  pattern-level semantics below covers both signednesses; a separate
  function `toSignedInt` recovers the signed reading.
* The C++ `~` flips every bit of the operand; the `w`-bit pattern
  stored after casting back to `E` is therefore the XOR of the pattern
  with the all-ones mask `2 ^ w - 1`.
* Reference parameters are modelled by explicit state passing: a call
  of a compound-assignment operator takes the values of the two caller
  variables and returns the value of the assignment expression together
  with the new values of both variables.
* The trait mechanism is modelled by the set of enumerations for which
  the `ENABLE_BITWISE_OPERATORS` specialization appears in the
  translation unit, and `std::enable_if` by an `Option` that holds a
  type exactly when its condition is true.
-/

/-- A value of an enumeration `E` whose underlying type `U` is a `w`-bit
integer type, represented by its `w`-bit pattern. -/
abbrev EnumValue (w : Nat) : Type := {n : Nat // n < 2 ^ w}

/-- The all-ones `w`-bit pattern `2 ^ w - 1`. -/
def mask (w : Nat) : Nat := 2 ^ w - 1

theorem mask_lt (w : Nat) : mask w < 2 ^ w :=
  Nat.sub_lt (Nat.two_pow_pos w) (by decide)

/-- The zero value of the enumeration: underlying representation `0`. -/
def zeroE (w : Nat) : EnumValue w := ⟨0, Nat.two_pow_pos w⟩

/-- The value of the enumeration whose underlying representation has all
`w` bits set. -/
def all_ones (w : Nat) : EnumValue w := ⟨mask w, mask_lt w⟩

/-- The C++ operator `|` of bitwise_enum.h: cast both operands to the
underlying type, bitwise OR there, cast back to `E`. -/
def bitwise_or {w : Nat} (lhs rhs : EnumValue w) : EnumValue w :=
  ⟨lhs.val ||| rhs.val, Nat.or_lt_two_pow lhs.property rhs.property⟩

/-- The C++ operator `&` of bitwise_enum.h: cast both operands to the
underlying type, bitwise AND there, cast back to `E`. -/
def bitwise_and {w : Nat} (lhs rhs : EnumValue w) : EnumValue w :=
  ⟨lhs.val &&& rhs.val, Nat.and_lt_two_pow lhs.val rhs.property⟩

/-- The C++ operator `^` of bitwise_enum.h: cast both operands to the
underlying type, bitwise XOR there, cast back to `E`. -/
def bitwise_xor {w : Nat} (lhs rhs : EnumValue w) : EnumValue w :=
  ⟨lhs.val ^^^ rhs.val, Nat.xor_lt_two_pow lhs.property rhs.property⟩

/-- The C++ operator `~` of bitwise_enum.h: cast the operand to the
underlying type, bitwise NOT there, cast back to `E`.  On the stored
`w`-bit pattern this flips each of the `w` bits, i.e. XORs with the
all-ones mask. -/
def bitwise_not {w : Nat} (lhs : EnumValue w) : EnumValue w :=
  ⟨mask w ^^^ lhs.val, Nat.xor_lt_two_pow (mask_lt w) lhs.property⟩

/-- The C++ operator `|=` of bitwise_enum.h: `lhs` is taken by reference
and `rhs` by value; `lhs` is assigned the OR and the reference `lhs` is
returned.  The result is (value of the assignment expression, (new value
of the caller variable bound to `lhs`, value of the caller variable that
supplied `rhs` after the call)). -/
def bitwise_or_assign {w : Nat} (lhs rhs : EnumValue w) :
    EnumValue w × (EnumValue w × EnumValue w) :=
  let l : EnumValue w :=
    ⟨lhs.val ||| rhs.val, Nat.or_lt_two_pow lhs.property rhs.property⟩
  (l, (l, rhs))

/-- The C++ operator `&=` of bitwise_enum.h, modelled like `|=`. -/
def bitwise_and_assign {w : Nat} (lhs rhs : EnumValue w) :
    EnumValue w × (EnumValue w × EnumValue w) :=
  let l : EnumValue w :=
    ⟨lhs.val &&& rhs.val, Nat.and_lt_two_pow lhs.val rhs.property⟩
  (l, (l, rhs))

/-- The C++ operator `^=` of bitwise_enum.h, modelled like `|=`. -/
def bitwise_xor_assign {w : Nat} (lhs rhs : EnumValue w) :
    EnumValue w × (EnumValue w × EnumValue w) :=
  let l : EnumValue w :=
    ⟨lhs.val ^^^ rhs.val, Nat.xor_lt_two_pow lhs.property rhs.property⟩
  (l, (l, rhs))

/-- A call of a binary value-parameter operator, seen together with the
state of the two caller variables: both operands are taken by value, so
the call returns the computed value and the unchanged pair of caller
variables. -/
def bitwise_or_call {w : Nat} (lhs rhs : EnumValue w) :
    EnumValue w × (EnumValue w × EnumValue w) :=
  (bitwise_or lhs rhs, (lhs, rhs))

/-- A call of `&` together with the state of the caller variables. -/
def bitwise_and_call {w : Nat} (lhs rhs : EnumValue w) :
    EnumValue w × (EnumValue w × EnumValue w) :=
  (bitwise_and lhs rhs, (lhs, rhs))

/-- A call of `^` together with the state of the caller variables. -/
def bitwise_xor_call {w : Nat} (lhs rhs : EnumValue w) :
    EnumValue w × (EnumValue w × EnumValue w) :=
  (bitwise_xor lhs rhs, (lhs, rhs))

/-- A call of `~` together with the state of the single caller
variable supplying the by-value operand. -/
def bitwise_not_call {w : Nat} (lhs : EnumValue w) :
    EnumValue w × EnumValue w :=
  (bitwise_not lhs, lhs)

/-- Twos-complement signed reading of a `w`-bit pattern, as performed
when the underlying type `U` is a signed `w`-bit integer type. -/
def toSignedInt (w : Nat) (x : EnumValue w) : Int :=
  if x.val < 2 ^ (w - 1) then (x.val : Int) else (x.val : Int) - 2 ^ w

/-- An enumeration type mentioned in a translation unit, identified by
an index. -/
abbrev EnumId : Type := Nat

/-- The part of a translation unit the trait mechanism depends on: the
list of enumerations for which the `ENABLE_BITWISE_OPERATORS`
specialization of `enable_bitwise_operators` has been declared. -/
structure TranslationUnit : Type where
  declared : List EnumId

/-- The trait member `enable_bitwise_operators<E>::enable`: `true` via
the explicit specialization when `ENABLE_BITWISE_OPERATORS(E)` appears
in the translation unit, otherwise the `false` of the general
template. -/
def enable_bitwise_operators_enable (tu : TranslationUnit) (e : EnumId) : Bool :=
  if tu.declared.contains e then true else false

/-- The member type `std::enable_if<b, T>::type`: it exists exactly when
`b` holds. -/
def enable_if_type (b : Bool) : Option Unit :=
  if b then some () else none

/-- Whether the seven operator templates of bitwise_enum.h have a
well-formed return type for `E` — i.e. survive substitution and
participate in overload resolution.  Each return type is
`std::enable_if<enable_bitwise_operators<E>::enable, _>::type`. -/
def operators_available (tu : TranslationUnit) (e : EnumId) : Bool :=
  (enable_if_type (enable_bitwise_operators_enable tu e)).isSome

/-! The example program main.cpp: `Widget::Alignment` is a scoped
enumeration with default underlying type `int`, a 32-bit type, and
members none = 0, top = 1, bottom = 2, left = 4, right = 8. -/

/-- The enumeration `Widget::Alignment` of main.cpp. -/
abbrev WidgetAlignment : Type := EnumValue 32

/-- The member `Widget::Alignment::none = 0`. -/
def WidgetAlignment.none : WidgetAlignment := ⟨0, by decide⟩

/-- The member `Widget::Alignment::top = 1`. -/
def WidgetAlignment.top : WidgetAlignment := ⟨1, by decide⟩

/-- The member `Widget::Alignment::bottom = 2`. -/
def WidgetAlignment.bottom : WidgetAlignment := ⟨2, by decide⟩

/-- The member `Widget::Alignment::left = 4`. -/
def WidgetAlignment.left : WidgetAlignment := ⟨4, by decide⟩

/-- The member `Widget::Alignment::right = 8`. -/
def WidgetAlignment.right : WidgetAlignment := ⟨8, by decide⟩

/-- The value of the variable `align` of main.cpp after
`align = Widget::WidgetAlignment::none; align |= top; align |= left;`. -/
def mainAlign : WidgetAlignment :=
  let a0 : WidgetAlignment := WidgetAlignment.none
  let a1 : WidgetAlignment := (bitwise_or_assign a0 WidgetAlignment.top).2.1
  (bitwise_or_assign a1 WidgetAlignment.left).2.1

/-- Auxiliary: a bit index at or above the width of an in-range pattern
reads as zero. -/
theorem testBit_eq_false_of_ge {a w i : Nat} (ha : a < 2 ^ w) (hwi : w ≤ i) :
    a.testBit i = false :=
  Nat.testBit_lt_two_pow
    (Nat.lt_of_lt_of_le ha (Nat.pow_le_pow_right (by decide) hwi))

/-- Auxiliary De Morgan law on `w`-bit patterns: complementing an OR
gives the AND of the complements. -/
theorem mask_xor_or {w a b : Nat} (ha : a < 2 ^ w) (hb : b < 2 ^ w) :
    mask w ^^^ (a ||| b) = (mask w ^^^ a) &&& (mask w ^^^ b) := by
  apply Nat.eq_of_testBit_eq
  intro i
  simp only [mask, Nat.testBit_xor, Nat.testBit_or, Nat.testBit_and,
    Nat.testBit_two_pow_sub_one]
  by_cases h : i < w
  · simp [h]
  · have hai : a.testBit i = false := testBit_eq_false_of_ge ha (Nat.le_of_not_lt h)
    have hbi : b.testBit i = false := testBit_eq_false_of_ge hb (Nat.le_of_not_lt h)
    simp [h, hai, hbi]

/-- Auxiliary De Morgan law on `w`-bit patterns: complementing an AND
gives the OR of the complements. -/
theorem mask_xor_and {w a b : Nat} (ha : a < 2 ^ w) (hb : b < 2 ^ w) :
    mask w ^^^ (a &&& b) = (mask w ^^^ a) ||| (mask w ^^^ b) := by
  apply Nat.eq_of_testBit_eq
  intro i
  simp only [mask, Nat.testBit_xor, Nat.testBit_or, Nat.testBit_and,
    Nat.testBit_two_pow_sub_one]
  by_cases h : i < w
  · simp [h]
  · have hai : a.testBit i = false := testBit_eq_false_of_ge ha (Nat.le_of_not_lt h)
    have hbi : b.testBit i = false := testBit_eq_false_of_ge hb (Nat.le_of_not_lt h)
    simp [h, hai, hbi]

/-- C1: for every bitmask-enabled enumeration and all values `x`, `y`,
the operators `|`, `&`, `^` return the value of `E` whose underlying
representation is the bitwise OR, AND, XOR of the representations of
`x` and `y`, and `~x` returns the value whose representation is the
bitwise NOT of the representation of `x` (bit by bit on the `w`-bit
underlying type); every result is again a `w`-bit value of `E`, never a
widened underlying value. -/
theorem C1_operators_bitwise_on_underlying (w : Nat) (x y : EnumValue w)
    (i : Nat) (hi : i < w) :
    (bitwise_or x y).val = x.val ||| y.val ∧
    (bitwise_and x y).val = x.val &&& y.val ∧
    (bitwise_xor x y).val = x.val ^^^ y.val ∧
    (bitwise_or x y).val.testBit i = (x.val.testBit i || y.val.testBit i) ∧
    (bitwise_and x y).val.testBit i = (x.val.testBit i && y.val.testBit i) ∧
    (bitwise_xor x y).val.testBit i = Bool.xor (x.val.testBit i) (y.val.testBit i) ∧
    (bitwise_not x).val.testBit i = ! x.val.testBit i ∧
    (bitwise_or x y).val < 2 ^ w ∧
    (bitwise_and x y).val < 2 ^ w ∧
    (bitwise_xor x y).val < 2 ^ w ∧
    (bitwise_not x).val < 2 ^ w := by
  refine ⟨rfl, rfl, rfl, ?_, ?_, ?_, ?_, (bitwise_or x y).property,
    (bitwise_and x y).property, (bitwise_xor x y).property,
    (bitwise_not x).property⟩
  · simp [bitwise_or]
  · simp [bitwise_and]
  · simp [bitwise_xor]
  · simp [bitwise_not, mask, hi]

theorem C1_witness :
    (2 : Nat) < 32 ∧
    (bitwise_or (⟨5, by decide⟩ : EnumValue 32) ⟨3, by decide⟩).val = 5 ||| 3 :=
  ⟨by decide,
    (C1_operators_bitwise_on_underlying 32 ⟨5, by decide⟩ ⟨3, by decide⟩ 2
      (by decide)).1⟩

/-- C2: the capability predicate `enable_bitwise_operators<E>::enable`
is false by default (a translation unit with no specialization answers
false for every enumeration), and the operator templates participate in
overload resolution for `E` exactly when `ENABLE_BITWISE_OPERATORS(E)`
has been declared; availability is a function of the translation unit
alone, so a use on a non-enabled enumeration fails at translation
time. -/
theorem C2_opt_in_gating (tu : TranslationUnit) (e : EnumId) :
    enable_bitwise_operators_enable ⟨[]⟩ e = false ∧
    (operators_available tu e = true ↔ e ∈ tu.declared) := by
  refine ⟨rfl, ?_⟩
  by_cases h : e ∈ tu.declared
  · simp [operators_available, enable_if_type, enable_bitwise_operators_enable, h]
  · simp [operators_available, enable_if_type, enable_bitwise_operators_enable, h]

theorem C2_witness : operators_available ⟨[7]⟩ 7 = true :=
  (C2_opt_in_gating ⟨[7]⟩ 7).2.mpr (by decide)

/-- C3: after `a |= b` the variable holds `a | b` computed from the
pre-assignment value of `a`, likewise for `&=` and `^=`, and each
assignment expression yields the updated left operand itself. -/
theorem C3_compound_assignment_equivalence (w : Nat) (a b : EnumValue w) :
    (bitwise_or_assign a b).2.1 = bitwise_or a b ∧
    (bitwise_or_assign a b).1 = (bitwise_or_assign a b).2.1 ∧
    (bitwise_and_assign a b).2.1 = bitwise_and a b ∧
    (bitwise_and_assign a b).1 = (bitwise_and_assign a b).2.1 ∧
    (bitwise_xor_assign a b).2.1 = bitwise_xor a b ∧
    (bitwise_xor_assign a b).1 = (bitwise_xor_assign a b).2.1 :=
  ⟨rfl, rfl, rfl, rfl, rfl, rfl⟩

/-- C4: the binary operators `|`, `&`, `^` are commutative and
associative on every bitmask-enabled enumeration. -/
theorem C4_comm_assoc (w : Nat) (x y z : EnumValue w) :
    bitwise_or x y = bitwise_or y x ∧
    bitwise_and x y = bitwise_and y x ∧
    bitwise_xor x y = bitwise_xor y x ∧
    bitwise_or (bitwise_or x y) z = bitwise_or x (bitwise_or y z) ∧
    bitwise_and (bitwise_and x y) z = bitwise_and x (bitwise_and y z) ∧
    bitwise_xor (bitwise_xor x y) z = bitwise_xor x (bitwise_xor y z) :=
  ⟨Subtype.ext (Nat.lor_comm _ _), Subtype.ext (Nat.land_comm _ _),
   Subtype.ext (Nat.xor_comm _ _), Subtype.ext (Nat.lor_assoc _ _ _),
   Subtype.ext (Nat.land_assoc _ _ _), Subtype.ext (Nat.xor_assoc _ _ _)⟩

/-- C5: `|` and `&` are idempotent and `x ^ x` is the zero value of the
enumeration. -/
theorem C5_idempotent_self_xor (w : Nat) (x : EnumValue w) :
    bitwise_or x x = x ∧
    bitwise_and x x = x ∧
    bitwise_xor x x = zeroE w :=
  ⟨Subtype.ext (Nat.or_self _), Subtype.ext (Nat.and_self _),
   Subtype.ext (Nat.xor_self _)⟩

/-- C6: complement is an involution and the De Morgan laws hold,
interpreted over the underlying type. -/
theorem C6_involution_de_morgan (w : Nat) (x y : EnumValue w) :
    bitwise_not (bitwise_not x) = x ∧
    bitwise_not (bitwise_or x y) = bitwise_and (bitwise_not x) (bitwise_not y) ∧
    bitwise_not (bitwise_and x y) = bitwise_or (bitwise_not x) (bitwise_not y) :=
  ⟨Subtype.ext (Nat.xor_cancel_left _ _),
   Subtype.ext (mask_xor_or x.property y.property),
   Subtype.ext (mask_xor_and x.property y.property)⟩

/-- C7: on an enumeration whose underlying type has `w` bits,
`~zero(E)` is the value whose representation has all `w` bits set —
which reads as `-1` under the signed twos-complement interpretation and
as the all-bits-set number `2 ^ w - 1` under the unsigned one — and no
bitwise operation produces a result outside the `w`-bit range. -/
theorem C7_not_zero_all_bits (w : Nat) (hw : 0 < w) (x y : EnumValue w)
    (i : Nat) (hi : i < w) :
    bitwise_not (zeroE w) = all_ones w ∧
    (all_ones w).val.testBit i = true ∧
    (all_ones w).val = 2 ^ w - 1 ∧
    toSignedInt w (all_ones w) = -1 ∧
    (bitwise_or x y).val < 2 ^ w ∧
    (bitwise_and x y).val < 2 ^ w ∧
    (bitwise_xor x y).val < 2 ^ w ∧
    (bitwise_not x).val < 2 ^ w := by
  refine ⟨Subtype.ext (Nat.xor_zero _), ?_, rfl, ?_,
    (bitwise_or x y).property, (bitwise_and x y).property,
    (bitwise_xor x y).property, (bitwise_not x).property⟩
  · simp [all_ones, mask, hi]
  · have h3 : 2 ^ (w - 1) < 2 ^ w :=
      Nat.pow_lt_pow_of_lt (by decide) (Nat.sub_lt hw (by decide))
    have h1 : (1 : Nat) ≤ 2 ^ w := Nat.one_le_two_pow
    have hcast : ((2 ^ w : Nat) : Int) = (2 : Int) ^ w := by push_cast; ring
    unfold toSignedInt all_ones mask
    rw [if_neg (Nat.not_lt.mpr (Nat.le_sub_one_of_lt h3))]
    rw [Nat.cast_sub h1, hcast]
    simp

/-- C8: in the example program, after `align = none; align |= top;
align |= left;` the probe `align & top` is non-zero, `align & bottom`
is zero, `align & left` is non-zero and `align & right` is zero. -/
theorem C8_main_scenario :
    (bitwise_and mainAlign WidgetAlignment.top).val ≠ 0 ∧
    (bitwise_and mainAlign WidgetAlignment.bottom).val = 0 ∧
    (bitwise_and mainAlign WidgetAlignment.left).val ≠ 0 ∧
    (bitwise_and mainAlign WidgetAlignment.right).val = 0 := by
  decide

/-- C9: the value-parameter operators `|`, `&`, `^`, `~` leave the
caller variables supplying their operands unchanged, and each
compound-assignment operator updates only its left operand, leaving the
right one unchanged. -/
theorem C9_frame_effects (w : Nat) (a b : EnumValue w) :
    (bitwise_or_call a b).2 = (a, b) ∧
    (bitwise_and_call a b).2 = (a, b) ∧
    (bitwise_xor_call a b).2 = (a, b) ∧
    (bitwise_not_call a).2 = a ∧
    (bitwise_or_assign a b).2.2 = b ∧
    (bitwise_or_assign a b).2.1 = bitwise_or a b ∧
    (bitwise_and_assign a b).2.2 = b ∧
    (bitwise_and_assign a b).2.1 = bitwise_and a b ∧
    (bitwise_xor_assign a b).2.2 = b ∧
    (bitwise_xor_assign a b).2.1 = bitwise_xor a b :=
  ⟨rfl, rfl, rfl, rfl, rfl, rfl, rfl, rfl, rfl, rfl⟩

/-- C10: the zero value of the enumeration (for the example program,
`Widget::Alignment::none`) is an identity for `|` and `^` and an
absorbing element for `&`. -/
theorem C10_zero_identity_absorbing (w : Nat) (x : EnumValue w) :
    bitwise_or x (zeroE w) = x ∧
    bitwise_xor x (zeroE w) = x ∧
    bitwise_and x (zeroE w) = zeroE w ∧
    zeroE 32 = WidgetAlignment.none :=
  ⟨Subtype.ext (Nat.or_zero _), Subtype.ext (Nat.xor_zero _),
   Subtype.ext (Nat.and_zero _), rfl⟩

theorem C7_witness :
    (0 : Nat) < 32 ∧ toSignedInt 32 (all_ones 32) = -1 :=
  ⟨by decide,
    (C7_not_zero_all_bits 32 (by decide) ⟨5, by decide⟩ ⟨3, by decide⟩ 0
      (by decide)).2.2.2.1⟩
